import Mathlib

set_option linter.unusedVariables false

/-!
Verification of the `msn-model` repository: a shallow embedding of the
channel-density distribution engine (`src/msnmodel/cell.py`), the
parameter store (`src/msnmodel/params.py`) and the neuromodulation
engine (`src/msnmodel/modulation.py`), together with theorems settling
the specification claims about them.

Real-valued numeric code (the profile functions, which use `exp` and
`10 ** p0`) is embedded over `ℝ`; fallible code paths (Python
`IndexError` / `ValueError` / `KeyError` / unbound local variables)
are embedded as `Option`-returning functions where `none` marks the
exception.  Values that the Python code represents as `np.nan` (a
missing peak-conductance lookup) are embedded as `none : Option ℚ`.
-/

namespace MsnModel

/-- `uniform_fun(distance, args, gbar)` from `msnmodel/cell.py`:
`10 ** args[0] * gbar`.  Empty `args` raises `IndexError` in Python,
embedded as `none`.  The `distance` argument is accepted and ignored,
as in the source. -/
noncomputable def uniform_fun (distance : ℝ) (args : List ℝ) (gbar : ℝ) : Option ℝ :=
  match args with
  | p0 :: _ => some ((10 : ℝ) ^ p0 * gbar)
  | [] => none

/-- `step_fun(distance, args, gbar)` from `msnmodel/cell.py`: unpacks
`p0, p1, p2, p3 = args` (a `ValueError` -- here `none` -- unless `args`
has exactly four elements), then returns `p0 * gbar` when
`distance > p2 and distance < p3`, else `p1 * gbar`. -/
noncomputable def step_fun (distance : ℝ) (args : List ℝ) (gbar : ℝ) : Option ℝ :=
  match args with
  | [p0, p1, p2, p3] =>
      some ((if p2 < distance ∧ distance < p3 then p0 else p1) * gbar)
  | _ => none

/-- `get_channel_density(distance, params)` from `msnmodel/cell.py`
with `params = [compartment, mech, args, gbar]`.  The nested
`if`/`elif` dispatch on the compartment and mechanism strings is
reproduced branch for branch; argument-unpacking failures and the
branches on which the Python local `density` is never assigned (an
axonal mechanism other than `kas`/`km`/`naf`, or an unknown
compartment, both an `UnboundLocalError`) are embedded as `none`. -/
noncomputable def get_channel_density (distance : ℝ) (compartment mech : String)
    (args : List ℝ) (gbar : ℝ) : Option ℝ :=
  if compartment = "dend" then
    if mech = "naf" then
      match args with
      | [p0, p1, p2, p3] =>
          some (gbar * (10 : ℝ) ^ p0 *
            (1 - p1 + p1 / (1 + Real.exp ((distance - p2) / p3))))
      | _ => none
    else if mech = "kaf" then
      match args with
      | [p0, p1, p2, p3] =>
          some (gbar * (10 : ℝ) ^ p0 *
            (1 + p1 / (1 + Real.exp ((distance - p2) / p3))))
      | _ => none
    else if mech = "kas" then
      match args with
      | [p0, p2, p3] =>
          some (gbar * (10 : ℝ) ^ p0 *
            (0.1 + 0.9 / (1 + Real.exp ((distance - p2) / p3))))
      | _ => none
    else if mech = "kir" ∨ mech = "sk" then
      match args with
      | p0 :: _ => some (gbar * (10 : ℝ) ^ p0)
      | [] => none
    else if mech = "can" then
      match args with
      | [p0, p1, p2, p3] =>
          some ((10 : ℝ) ^ p0 *
            (1 - p1 + p1 / (1 + Real.exp ((distance - p2) / p3))))
      | _ => none
    else if mech = "cav32" ∨ mech = "cav33" then
      match args with
      | [p0, p2, p3] =>
          some ((10 : ℝ) ^ p0 / (1 + Real.exp ((distance - p2) / p3)))
      | _ => none
    else uniform_fun distance args gbar
  else if compartment = "axon" then
    if mech = "kas" ∨ mech = "km" then uniform_fun distance args gbar
    else if mech = "naf" then step_fun distance args gbar
    else none
  else if compartment = "soma" then uniform_fun distance args gbar
  else none

/-- The specification's "shape arguments within physiological ranges",
made precise per dispatch branch of `get_channel_density`: the sigmoid
mixing weight `p1` lies in `[0, 1]` for the `naf`/`can` profiles and is
nonnegative for `kaf`, and both step levels `p0`, `p1` are nonnegative
for the axonal `naf` step profile.  All other branches need no
constraint beyond a nonnegative peak value. -/
def physiological (compartment mech : String) (args : List ℝ) : Prop :=
  if compartment = "dend" then
    if mech = "naf" ∨ mech = "can" then
      match args with
      | [_, p1, _, _] => 0 ≤ p1 ∧ p1 ≤ 1
      | _ => True
    else if mech = "kaf" then
      match args with
      | [_, p1, _, _] => 0 ≤ p1
      | _ => True
    else True
  else if compartment = "axon" then
    if mech = "naf" then
      match args with
      | [p0, p1, _, _] => 0 ≤ p0 ∧ 0 ≤ p1
      | _ => True
    else True
  else True

lemma ten_rpow_nonneg (p : ℝ) : 0 ≤ (10 : ℝ) ^ p :=
  (Real.rpow_pos_of_pos (by norm_num) p).le

lemma one_add_exp_pos (t : ℝ) : (0 : ℝ) < 1 + Real.exp t := by positivity

lemma sigmoid_mix_nonneg (p1 t : ℝ) (h0 : 0 ≤ p1) (h1 : p1 ≤ 1) :
    0 ≤ 1 - p1 + p1 / (1 + Real.exp t) := by
  have hd : 0 ≤ p1 / (1 + Real.exp t) := div_nonneg h0 (one_add_exp_pos t).le
  linarith

lemma uniform_fun_nonneg (distance : ℝ) (args : List ℝ) (gbar v : ℝ)
    (hg : 0 ≤ gbar) (hv : uniform_fun distance args gbar = some v) : 0 ≤ v := by
  cases args with
  | nil => simp [uniform_fun] at hv
  | cons p0 rest =>
      simp only [uniform_fun, Option.some.injEq] at hv
      exact hv ▸ mul_nonneg (ten_rpow_nonneg p0) hg

/-- C9: For every peak value `P` and every distance, the uniform
profile with shape arguments `[0]` returns exactly `P`
(`10 ^ 0 = 1` acts as the identity on the peak value). -/
theorem C9_uniform_identity (distance P : ℝ) :
    uniform_fun distance [0] P = some P := by
  simp [uniform_fun, Real.rpow_zero]

/-- C4: the step profile returns `args[0] * peak` exactly when
`args[2] < distance < args[3]` and `args[1] * peak` otherwise; in
particular at `distance = args[2]` and at `distance = args[3]` the
result is the outside branch `args[1] * peak` (strict comparisons). -/
theorem C4_step_fun_cases (distance p0 p1 p2 p3 gbar : ℝ) :
    (p2 < distance ∧ distance < p3 →
      step_fun distance [p0, p1, p2, p3] gbar = some (p0 * gbar)) ∧
    (¬(p2 < distance ∧ distance < p3) →
      step_fun distance [p0, p1, p2, p3] gbar = some (p1 * gbar)) ∧
    step_fun p2 [p0, p1, p2, p3] gbar = some (p1 * gbar) ∧
    step_fun p3 [p0, p1, p2, p3] gbar = some (p1 * gbar) := by
  refine ⟨fun h => ?_, fun h => ?_, ?_, ?_⟩
  · simp only [step_fun]
    rw [if_pos h]
  · simp only [step_fun]
    rw [if_neg h]
  · simp only [step_fun]
    rw [if_neg (fun hc => absurd hc.1 (lt_irrefl p2))]
  · simp only [step_fun]
    rw [if_neg (fun hc => absurd hc.2 (lt_irrefl p3))]

theorem C4_step_fun_witness :
    step_fun 10 [(2 : ℝ), 3, 5, 20] 7 = some (2 * 7) ∧
    step_fun 30 [(2 : ℝ), 3, 5, 20] 7 = some (3 * 7) :=
  ⟨(C4_step_fun_cases 10 2 3 5 20 7).1 (by norm_num),
   (C4_step_fun_cases 30 2 3 5 20 7).2.1 (by norm_num)⟩

/-- C2: for every compartment, mechanism, shape-argument list within
the physiological ranges and peak value `gbar ≥ 0`, whenever the
channel-density calculation returns a value it is `≥ 0`, so the
negative-density assertion in `get_channel_density` never fires under
this precondition. -/
theorem C2_density_nonneg (distance : ℝ) (compartment mech : String)
    (args : List ℝ) (gbar v : ℝ) (hg : 0 ≤ gbar)
    (hphys : physiological compartment mech args)
    (hv : get_channel_density distance compartment mech args gbar = some v) :
    0 ≤ v := by
  by_cases hc1 : compartment = "dend"
  · subst hc1
    by_cases hm1 : mech = "naf"
    · subst hm1
      rcases args with _ | ⟨p0, _ | ⟨p1, _ | ⟨p2, _ | ⟨p3, _ | ⟨p4, rest⟩⟩⟩⟩⟩ <;>
        simp only [get_channel_density, physiological, String.reduceEq, reduceIte,
          or_self, or_false, false_or, or_true, true_or, if_true, if_false,
          ite_self, Option.some.injEq, reduceCtorEq] at hv hphys
      subst hv
      exact mul_nonneg (mul_nonneg hg (ten_rpow_nonneg p0))
        (sigmoid_mix_nonneg p1 _ hphys.1 hphys.2)
    · by_cases hm2 : mech = "kaf"
      · subst hm2
        rcases args with _ | ⟨p0, _ | ⟨p1, _ | ⟨p2, _ | ⟨p3, _ | ⟨p4, rest⟩⟩⟩⟩⟩ <;>
          simp only [get_channel_density, physiological, String.reduceEq, reduceIte,
            or_self, or_false, false_or, or_true, true_or, if_true, if_false,
            ite_self, Option.some.injEq, reduceCtorEq] at hv hphys
        subst hv
        have hd : 0 ≤ p1 / (1 + Real.exp ((distance - p2) / p3)) :=
          div_nonneg hphys (one_add_exp_pos _).le
        exact mul_nonneg (mul_nonneg hg (ten_rpow_nonneg p0)) (by linarith)
      · by_cases hm3 : mech = "kas"
        · subst hm3
          rcases args with _ | ⟨p0, _ | ⟨p2, _ | ⟨p3, _ | ⟨p4, rest⟩⟩⟩⟩ <;>
            simp only [get_channel_density, String.reduceEq, reduceIte,
              or_self, or_false, false_or, or_true, true_or, if_true, if_false,
              ite_self, Option.some.injEq, reduceCtorEq] at hv
          subst hv
          have hd : 0 ≤ (0.9 : ℝ) / (1 + Real.exp ((distance - p2) / p3)) :=
            div_nonneg (by norm_num) (one_add_exp_pos _).le
          exact mul_nonneg (mul_nonneg hg (ten_rpow_nonneg p0)) (by linarith)
        · by_cases hm4 : mech = "kir" ∨ mech = "sk"
          · rcases hm4 with h | h <;> subst h <;>
              rcases args with _ | ⟨p0, rest⟩ <;>
                simp only [get_channel_density, String.reduceEq, reduceIte,
                  or_self, or_false, false_or, or_true, true_or, if_true, if_false,
                  ite_self, Option.some.injEq, reduceCtorEq] at hv <;>
              exact hv ▸ mul_nonneg hg (ten_rpow_nonneg p0)
          · by_cases hm5 : mech = "can"
            · subst hm5
              rcases args with _ | ⟨p0, _ | ⟨p1, _ | ⟨p2, _ | ⟨p3, _ | ⟨p4, rest⟩⟩⟩⟩⟩ <;>
                simp only [get_channel_density, physiological, String.reduceEq,
                  reduceIte, or_self, or_false, false_or, or_true, true_or,
                  if_true, if_false, ite_self, Option.some.injEq,
                  reduceCtorEq] at hv hphys
              subst hv
              exact mul_nonneg (ten_rpow_nonneg p0)
                (sigmoid_mix_nonneg p1 _ hphys.1 hphys.2)
            · by_cases hm6 : mech = "cav32" ∨ mech = "cav33"
              · rcases hm6 with h | h <;> subst h <;>
                  rcases args with _ | ⟨p0, _ | ⟨p2, _ | ⟨p3, _ | ⟨p4, rest⟩⟩⟩⟩ <;>
                    simp only [get_channel_density, String.reduceEq, reduceIte,
                      or_self, or_false, false_or, or_true, true_or, if_true,
                      if_false, ite_self, Option.some.injEq,
                      reduceCtorEq] at hv <;>
                  exact hv ▸ div_nonneg (ten_rpow_nonneg p0) (one_add_exp_pos _).le
              · push_neg at hm4 hm6
                simp only [get_channel_density, String.reduceEq, reduceIte, hm1,
                  hm2, hm3, hm4.1, hm4.2, hm5, hm6.1, hm6.2, or_self, or_false,
                  false_or, if_true, if_false] at hv
                exact uniform_fun_nonneg distance args gbar v hg hv
  · by_cases hc2 : compartment = "axon"
    · subst hc2
      by_cases hm7 : mech = "kas" ∨ mech = "km"
      · rcases hm7 with h | h <;> subst h <;>
          simp only [get_channel_density, String.reduceEq, reduceIte, or_self,
            or_false, false_or, or_true, true_or, if_true, if_false] at hv <;>
          exact uniform_fun_nonneg distance args gbar v hg hv
      · by_cases hm8 : mech = "naf"
        · subst hm8
          rcases args with _ | ⟨p0, _ | ⟨p1, _ | ⟨p2, _ | ⟨p3, _ | ⟨p4, rest⟩⟩⟩⟩⟩ <;>
            simp only [get_channel_density, physiological, step_fun,
              String.reduceEq, reduceIte, or_self, or_false, false_or, or_true,
              true_or, if_true, if_false, ite_self, Option.some.injEq,
              reduceCtorEq] at hv hphys
          subst hv
          by_cases hi : p2 < distance ∧ distance < p3
          · rw [if_pos hi]
            exact mul_nonneg hphys.1 hg
          · rw [if_neg hi]
            exact mul_nonneg hphys.2 hg
        · push_neg at hm7
          simp only [get_channel_density, String.reduceEq, reduceIte, hm7.1,
            hm7.2, hm8, or_self, if_true, if_false, reduceCtorEq] at hv
    · by_cases hc3 : compartment = "soma"
      · subst hc3
        simp only [get_channel_density, String.reduceEq, reduceIte] at hv
        exact uniform_fun_nonneg distance args gbar v hg hv
      · simp only [get_channel_density, hc1, hc2, hc3, if_true, if_false,
          reduceCtorEq] at hv

/-- One row of the `conductances.tsv` table loaded by
`ModelParameters.__init__` in `msnmodel/params.py`: columns
`mechanism`, `compartment`, `cell`, `value`. -/
structure ConductanceRow where
  mechanism : String
  compartment : String
  cell : String
  value : ℚ
deriving DecidableEq

/-- The per-cell record `ModelParameters._params[cell_type][cell_index]`:
the rheobase and the density-parameter mapping (the pickled
`variables`, after the `c32`/`c33` → `cav32`/`cav33` renaming),
mechanism name ↦ shape arguments.  `none` means the mechanism is
absent from the stored set. -/
structure CellParams where
  rheobase : ℚ
  density_params : String → Option (List ℚ)

/-- The state of a `ModelParameters` instance: the per-cell parameter
sets keyed by cell type and index (`none` = `KeyError`) and the loaded
conductance table. -/
structure ModelParameters where
  params : String → ℤ → Option CellParams
  conductances : List ConductanceRow

/-- `ModelParameters.get_rheobase(cell_type, cell_index)`. -/
def get_rheobase (mp : ModelParameters) (cell_type : String)
    (cell_index : ℤ) : Option ℚ :=
  (mp.params cell_type cell_index).map CellParams.rheobase

/-- `ModelParameters.get_gbar(cell_type)`: the rows of the conductance
table whose `cell` column equals the cell type or `"all"`.  (The
source then drops the `cell` column, which no lookup reads.) -/
def get_gbar (mp : ModelParameters) (cell_type : String) : List ConductanceRow :=
  mp.conductances.filter (fun r => r.cell == cell_type || r.cell == "all")

/-- The peak-conductance lookup at the end of `get_density_params`:
filter the `get_gbar` table by mechanism and compartment; an empty
result is `np.nan` in the source, embedded as `none`, otherwise the
first row's `value`. -/
def lookup_gbar (table : List ConductanceRow) (mechanism compartment : String) :
    Option ℚ :=
  match table.filter (fun r =>
      r.mechanism == mechanism && r.compartment == compartment) with
  | [] => none
  | r :: _ => some r.value

/-- The dendritic mechanism list iterated by `get_density_params`. -/
def dendritic_mechs : List String :=
  ["naf", "kaf", "kas", "kir", "sk", "can", "cav32", "cav33", "kdr",
   "cal12", "cal13", "car", "bk"]

/-- The somatic mechanisms that always take the default argument `[0]`
in `get_density_params` (all somatic channels except `sk` and `kir`). -/
def somatic_default_mechs : List String :=
  ["naf", "kaf", "kas", "kdr", "bk", "cal12", "cal13", "car", "can"]

/-- One row of the list returned by `get_density_params`:
`[compartment, mechanism, args, gbar]`, with `gbar = none` standing
for the `np.nan` of a failed conductance lookup. -/
structure DensityLine where
  compartment : String
  mechanism : String
  args : List ℚ
  gbar : Option ℚ
deriving DecidableEq

/-- `ModelParameters.get_density_params(cell_type, cell_index)` from
`msnmodel/params.py`.  Missing dendritic shape arguments default to
`[0]`; the nine listed somatic mechanisms always get `[0]` while
somatic `sk`/`kir` read the stored arguments (a `KeyError` -- `none`
here -- if absent); the axon rows use the hardcoded defaults.  Each
row finally receives the peak conductance from `lookup_gbar`. -/
def get_density_params (mp : ModelParameters) (cell_type : String)
    (cell_index : ℤ) : Option (List DensityLine) :=
  (mp.params cell_type cell_index).bind fun cp =>
    (cp.density_params "sk").bind fun sk_args =>
      (cp.density_params "kir").bind fun kir_args =>
        let table := get_gbar mp cell_type
        let raw : List (String × String × List ℚ) :=
          dendritic_mechs.map
            (fun m => ("dend", m, (cp.density_params m).getD [0])) ++
          somatic_default_mechs.map
            (fun m => ("soma", m, ([0] : List ℚ))) ++
          [("soma", "sk", sk_args), ("soma", "kir", kir_args),
           ("axon", "kas", [0]), ("axon", "naf", [1, 11/10, 30, 500]),
           ("axon", "km", [0])]
        some (raw.map (fun line =>
          ⟨line.1, line.2.1, line.2.2, lookup_gbar table line.2.1 line.1⟩))

/-- The shape arguments that `get_density_params` assigned to a given
(compartment, mechanism) pair, read off the returned list. -/
def argsOf (lines : List DensityLine) (compartment mechanism : String) :
    Option (List ℚ) :=
  (lines.filter (fun l => l.compartment == compartment &&
    l.mechanism == mechanism)).head?.map DensityLine.args

theorem C2_density_nonneg_witness :
    (0 : ℝ) ≤ 1 ∧ physiological "dend" "naf" [0, 1, 30, 10] ∧
    ∃ v, get_channel_density 5 "dend" "naf" [0, 1, 30, 10] 1 = some v ∧ 0 ≤ v := by
  refine ⟨zero_le_one, by simp [physiological], ?_⟩
  refine ⟨1 * (10 : ℝ) ^ (0 : ℝ) *
    (1 - 1 + 1 / (1 + Real.exp ((5 - 30) / 10))), ?_, ?_⟩
  · simp [get_channel_density]
  · exact C2_density_nonneg 5 "dend" "naf" [0, 1, 30, 10] 1 _ zero_le_one
      (by simp [physiological]) (by simp [get_channel_density])

/-- C3: every entry of the density-parameter list whose
peak-conductance lookup yields no rows gets `np.nan` (`none`) as its
peak value; the call itself returns normally rather than raising. -/
theorem C3_missing_conductance_nan (mp : ModelParameters) (ct : String)
    (ci : ℤ) (lines : List DensityLine)
    (h : get_density_params mp ct ci = some lines) :
    ∀ line ∈ lines,
      (get_gbar mp ct).filter (fun r => r.mechanism == line.mechanism &&
        r.compartment == line.compartment) = [] →
      line.gbar = none := by
  intro line hline hfilter
  unfold get_density_params at h
  rcases hmp : mp.params ct ci with _ | cp <;> rw [hmp] at h
  · simp at h
  simp only [Option.some_bind] at h
  rcases hsk : cp.density_params "sk" with _ | sk_args <;> rw [hsk] at h
  · simp at h
  simp only [Option.some_bind] at h
  rcases hkir : cp.density_params "kir" with _ | kir_args <;> rw [hkir] at h
  · simp at h
  simp only [Option.some_bind, Option.some.injEq] at h
  subst h
  simp only [List.mem_map] at hline
  obtain ⟨pre, hpre, hline⟩ := hline
  subst hline
  simp only at hfilter ⊢
  unfold lookup_gbar
  rw [hfilter]

/-- C5: in the list returned by `get_density_params`, every dendritic
mechanism absent from the stored per-cell parameter set gets shape
arguments `[0]`; every somatic mechanism except `sk` and `kir` gets
`[0]`; and the axon rows get the hardcoded defaults `[0]` for `kas`,
`[1, 1.1, 30, 500]` for `naf` and `[0]` for `km`. -/
theorem C5_default_shape_args (mp : ModelParameters) (ct : String) (ci : ℤ)
    (cp : CellParams) (lines : List DensityLine)
    (hcp : mp.params ct ci = some cp)
    (h : get_density_params mp ct ci = some lines) :
    (∀ m ∈ dendritic_mechs, cp.density_params m = none →
        argsOf lines "dend" m = some [0]) ∧
    (∀ m ∈ somatic_default_mechs, argsOf lines "soma" m = some [0]) ∧
    argsOf lines "axon" "kas" = some [0] ∧
    argsOf lines "axon" "naf" = some [1, 11/10, 30, 500] ∧
    argsOf lines "axon" "km" = some [0] := by
  unfold get_density_params at h
  rw [hcp] at h
  simp only [Option.some_bind] at h
  rcases hsk : cp.density_params "sk" with _ | sk_args <;> rw [hsk] at h
  · simp at h
  simp only [Option.some_bind] at h
  rcases hkir : cp.density_params "kir" with _ | kir_args <;> rw [hkir] at h
  · simp at h
  simp only [Option.some_bind, Option.some.injEq] at h
  subst h
  refine ⟨?_, ?_, ?_, ?_, ?_⟩
  · intro m hm hnone
    fin_cases hm <;>
      simp [argsOf, dendritic_mechs, somatic_default_mechs, hnone]
  · intro m hm
    fin_cases hm <;>
      simp [argsOf, dendritic_mechs, somatic_default_mechs]
  · simp [argsOf, dendritic_mechs, somatic_default_mechs]
  · simp [argsOf, dendritic_mechs, somatic_default_mechs]
  · simp [argsOf, dendritic_mechs, somatic_default_mechs]

/-- C8: with a fixed parameter source, resolving the same
(cell type, cell index) twice yields identical density-parameter lists
and identical rheobase values. -/
theorem C8_deterministic (mp : ModelParameters) (ct₁ ct₂ : String)
    (i₁ i₂ : ℤ) (hct : ct₁ = ct₂) (hi : i₁ = i₂) :
    get_density_params mp ct₁ i₁ = get_density_params mp ct₂ i₂ ∧
    get_rheobase mp ct₁ i₁ = get_rheobase mp ct₂ i₂ := by
  subst hct
  subst hi
  exact ⟨rfl, rfl⟩

/-- A small concrete parameter source used to witness the
parameter-store theorems: one dMSN cell whose stored shape arguments
cover `sk`, `kir` and `naf` only, and a one-row conductance table. -/
def sampleCellParams : CellParams where
  rheobase := 100
  density_params := fun m =>
    if m == "sk" then some [2] else
    if m == "kir" then some [3] else
    if m == "naf" then some [1/2, 1/2, 10, 20] else none

def sampleMP : ModelParameters where
  params := fun ct i =>
    if ct == "dmsn" && i == 0 then some sampleCellParams else none
  conductances := [⟨"naf", "dend", "all", 1⟩]

def sampleLines : List DensityLine :=
  (get_density_params sampleMP "dmsn" 0).getD []

theorem C3_missing_conductance_nan_witness :
    get_density_params sampleMP "dmsn" 0 = some sampleLines ∧
    ∀ line ∈ sampleLines,
      (get_gbar sampleMP "dmsn").filter (fun r =>
        r.mechanism == line.mechanism &&
        r.compartment == line.compartment) = [] →
      line.gbar = none := by
  have h : get_density_params sampleMP "dmsn" 0 = some sampleLines := rfl
  exact ⟨h, C3_missing_conductance_nan sampleMP "dmsn" 0 sampleLines h⟩

theorem C5_default_shape_args_witness :
    sampleMP.params "dmsn" 0 = some sampleCellParams ∧
    get_density_params sampleMP "dmsn" 0 = some sampleLines ∧
    ((∀ m ∈ dendritic_mechs, sampleCellParams.density_params m = none →
        argsOf sampleLines "dend" m = some [0]) ∧
     (∀ m ∈ somatic_default_mechs, argsOf sampleLines "soma" m = some [0]) ∧
     argsOf sampleLines "axon" "kas" = some [0] ∧
     argsOf sampleLines "axon" "naf" = some [1, 11/10, 30, 500] ∧
     argsOf sampleLines "axon" "km" = some [0]) := by
  have hcp : sampleMP.params "dmsn" 0 = some sampleCellParams := rfl
  have h : get_density_params sampleMP "dmsn" 0 = some sampleLines := rfl
  exact ⟨hcp, h,
    C5_default_shape_args sampleMP "dmsn" 0 sampleCellParams sampleLines hcp h⟩

theorem C8_deterministic_witness :
    get_density_params sampleMP "dmsn" 0 = get_density_params sampleMP "dmsn" 0 ∧
    get_rheobase sampleMP "dmsn" 0 = get_rheobase sampleMP "dmsn" 0 :=
  C8_deterministic sampleMP "dmsn" "dmsn" 0 0 rfl rfl

/-- Contiguous-sublist test on character lists: `sub` occurs in `s`
iff it is a prefix of some suffix of `s`. -/
def listContainsSub (s sub : List Char) : Bool :=
  match s with
  | [] => sub.isEmpty
  | _ :: tail => sub.isPrefixOf s || listContainsSub tail sub

/-- Python's `'sub' in s` substring test on the section name. -/
def strContainsSub (s sub : String) : Bool :=
  listContainsSub s.toList sub.toList

/-- Python `int()` truncation toward zero on a rational. -/
def pyInt (x : ℚ) : ℤ :=
  if 0 ≤ x then ⌊x⌋ else -⌊-x⌋

/-- The spatial-discretisation rule in `MSN._setup_morphology`:
a section whose name contains `'axon'` gets `nseg = 2`; every other
section of length `L` gets `nseg = 2 * int(L / 40) + 1`. -/
def nseg (name : String) (L : ℚ) : ℤ :=
  if strContainsSub name "axon" then 2 else 2 * pyInt (L / 40) + 1

/-- C7: after morphology setup, every section whose name contains
`'axon'` has exactly 2 segments, and every other section of length
`L ≥ 0` has `2 * ⌊L / 40⌋ + 1` segments, a count that is odd and at
least 1. -/
theorem C7_nseg_rule (name : String) (L : ℚ) (hL : 0 ≤ L) :
    (strContainsSub name "axon" = true → nseg name L = 2) ∧
    (strContainsSub name "axon" = false →
      nseg name L = 2 * ⌊L / 40⌋ + 1 ∧ Odd (nseg name L) ∧ 1 ≤ nseg name L) := by
  constructor
  · intro h
    simp [nseg, h]
  · intro h
    have hq : (0 : ℚ) ≤ L / 40 := by positivity
    have heq : nseg name L = 2 * ⌊L / 40⌋ + 1 := by
      simp [nseg, h, pyInt, hq]
    have hfl : (0 : ℤ) ≤ ⌊L / 40⌋ := Int.floor_nonneg.mpr hq
    refine ⟨heq, ⟨⌊L / 40⌋, heq⟩, ?_⟩
    rw [heq]
    omega

theorem C7_nseg_rule_witness :
    ((0 : ℚ) ≤ 100 ∧ strContainsSub "axon[0]" "axon" = true ∧
      nseg "axon[0]" 100 = 2) ∧
    (strContainsSub "dend[5]" "axon" = false ∧
      (nseg "dend[5]" 100 = 2 * ⌊(100 : ℚ) / 40⌋ + 1 ∧
       Odd (nseg "dend[5]" 100) ∧ 1 ≤ nseg "dend[5]" 100)) :=
  ⟨⟨by norm_num, by decide,
    (C7_nseg_rule "axon[0]" 100 (by norm_num)).1 (by decide)⟩,
   ⟨by decide, (C7_nseg_rule "dend[5]" 100 (by norm_num)).2 (by decide)⟩⟩

/-- Python truthiness of an optional numeric argument
(`if gaba_scale_factor:`): `None` and `0` are falsy, every other
number is truthy. -/
def pyTruthy (x : Option ℚ) : Bool :=
  match x with
  | none => false
  | some v => v != 0

/-- The per-cell-type base conductance `gbase` in `MSN.add_bg_noise`
(`3e-4` uS for dMSN, `2e-4` uS for iMSN; any other cell type leaves
the Python local unbound -- `none`). -/
def bg_gbase (cell_type : String) : Option ℚ :=
  if cell_type == "dmsn" then some (3 / 10000)
  else if cell_type == "imsn" then some (2 / 10000)
  else none

/-- The GABA `NetCon` weight computed in `MSN.add_bg_noise`:
`gbase * 3 * gaba_scale_factor` when the scale factor is truthy, else
`gbase * 5`. -/
def gaba_conductance (gbase : ℚ) (gaba_scale_factor : Option ℚ) : ℚ :=
  if pyTruthy gaba_scale_factor then gbase * 3 * gaba_scale_factor.getD 0
  else gbase * 5

/-- The three connection weights `MSN.add_bg_noise` gives the synapses
it creates on each target section: the AMPA and NMDA `NetCon`s get
weight `gbase`, the GABA `NetCon` gets `gaba_conductance`. -/
def add_bg_noise_weights (cell_type : String) (gaba_scale_factor : Option ℚ) :
    Option (List (String × ℚ)) :=
  (bg_gbase cell_type).map fun gbase =>
    [("ampa", gbase), ("nmda", gbase),
     ("gaba", gaba_conductance gbase gaba_scale_factor)]

/-- C6 counterexample: with an explicit GABA scale factor of `0`, the
GABA weight is `gbase * 5`, not `gbase * 3 * 0` as the claim's
universal reading requires. -/
theorem C6_gaba_weight_counterexample :
    gaba_conductance (3 / 10000) (some 0) ≠ (3 : ℚ) / 10000 * 3 * 0 := by
  norm_num [gaba_conductance, pyTruthy]

/-- C6 (amended): the AMPA and NMDA weights equal the cell-type base
conductance; the GABA weight is `gbase * 5` when the scale factor is
absent (or `0`, which Python's truthiness test conflates with absent)
and `gbase * 3 * factor` when a nonzero factor is given. -/
theorem C6_bg_noise_weights (cell_type : String) (gbase s : ℚ)
    (hg : bg_gbase cell_type = some gbase) :
    add_bg_noise_weights cell_type none =
      some [("ampa", gbase), ("nmda", gbase), ("gaba", gbase * 5)] ∧
    (s ≠ 0 → add_bg_noise_weights cell_type (some s) =
      some [("ampa", gbase), ("nmda", gbase), ("gaba", gbase * 3 * s)]) ∧
    add_bg_noise_weights cell_type (some 0) =
      some [("ampa", gbase), ("nmda", gbase), ("gaba", gbase * 5)] := by
  refine ⟨?_, fun hs => ?_, ?_⟩
  · simp [add_bg_noise_weights, hg, gaba_conductance, pyTruthy]
  · simp [add_bg_noise_weights, hg, gaba_conductance, pyTruthy, hs]
  · simp [add_bg_noise_weights, hg, gaba_conductance, pyTruthy]

theorem C6_bg_noise_weights_witness :
    bg_gbase "dmsn" = some (3 / 10000) ∧ (2 : ℚ) ≠ 0 ∧
    add_bg_noise_weights "dmsn" (some 2) =
      some [("ampa", 3 / 10000), ("nmda", 3 / 10000),
            ("gaba", (3 : ℚ) / 10000 * 3 * 2)] :=
  ⟨rfl, by norm_num,
   (C6_bg_noise_weights "dmsn" (3 / 10000) 2 rfl).2.1 (by norm_num)⟩

/-- C10: a GABA scale factor of exactly `0` is treated like an absent
factor -- the GABA weight is the default `gbase * 5`, not `0` --
because `add_bg_noise` tests the factor for truthiness, not for
`None`. -/
theorem C10_zero_gaba_factor (gbase : ℚ) (cell_type : String) :
    gaba_conductance gbase (some 0) = gbase * 5 ∧
    gaba_conductance gbase (some 0) = gaba_conductance gbase none ∧
    add_bg_noise_weights cell_type (some 0) =
      add_bg_noise_weights cell_type none := by
  refine ⟨?_, ?_, ?_⟩ <;>
    simp [gaba_conductance, pyTruthy, add_bg_noise_weights]

/-- The modulation-related scalars the modulation engine writes onto a
mechanism or synapse instance (`damod`, `maxMod`, `level` for
dopamine; `max2`, `lev2` for acetylcholine; `modShift` for the
kaf voltage shift), as declared in the NEURON `.mod` files. -/
structure MechState where
  damod : ℚ
  maxMod : ℚ
  level : ℚ
  max2 : ℚ
  lev2 : ℚ
  modShift : ℚ
deriving DecidableEq

/-- `Dopamine._modulate_instrinsic` from `msnmodel/modulation.py`,
acting on one mechanism whose name is in the sampled parameter set,
with drawn factor `p`; `inPlay` is Python's
`len(self.play) and mech.name() in self.play`.  The writes happen in
source order: `damod := 1`, `maxMod := p`, then `level := 0` if
resetting, else `level := 1` unless a trajectory drives it. -/
def da_modulate_instrinsic (p : ℚ) (reset inPlay : Bool) (st : MechState) :
    MechState :=
  let st1 := {st with damod := 1, maxMod := p}
  if reset then {st1 with level := 0}
  else if inPlay then st1
  else {st1 with level := 1}

/-- `Dopamine._modulate_gaba`, acting on one GABA synapse: the same
write sequence as the intrinsic case (`damod := 1`, `maxMod`, then
`level`). -/
def da_modulate_gaba (p : ℚ) (reset inPlay : Bool) (st : MechState) :
    MechState :=
  let st1 := {st with damod := 1, maxMod := p}
  if reset then {st1 with level := 0}
  else if inPlay then st1
  else {st1 with level := 1}

/-- `Dopamine._modulate_glut`, acting on one AMPA or NMDA synapse with
the corresponding drawn factor `p`. -/
def da_modulate_glut (p : ℚ) (reset inPlay : Bool) (st : MechState) :
    MechState :=
  let st1 := {st with damod := 1, maxMod := p}
  if reset then {st1 with level := 0}
  else if inPlay then st1
  else {st1 with level := 1}

/-- `Acetylcholine._modulate_intrinsic`.  Note the bare `if` after the
reset branch (not `elif` as in the sibling `_modulate_gaba` /
`_modulate_glut`): with empty `play` the final `lev2 := 1` write also
runs on the reset path, overwriting the `lev2 := 0` just written. -/
def ach_modulate_intrinsic (p : ℚ) (reset inPlay : Bool) (st : MechState) :
    MechState :=
  let st1 := {st with damod := 1, max2 := p}
  let st2 := if reset then {st1 with damod := 0, lev2 := 0} else st1
  if inPlay then st2 else {st2 with lev2 := 1}

/-- `Acetylcholine._modulate_gaba`: here the reset branch is followed
by `elif`, so `damod = 0` and `lev2 = 0` survive a reset. -/
def ach_modulate_gaba (p : ℚ) (reset inPlay : Bool) (st : MechState) :
    MechState :=
  let st1 := {st with damod := 1, max2 := p}
  if reset then {st1 with damod := 0, lev2 := 0}
  else if inPlay then st1
  else {st1 with lev2 := 1}

/-- `Acetylcholine._modulate_glut`, acting on one AMPA or NMDA synapse
(same `elif` shape as `_modulate_gaba`). -/
def ach_modulate_glut (p : ℚ) (reset inPlay : Bool) (st : MechState) :
    MechState :=
  let st1 := {st with damod := 1, max2 := p}
  if reset then {st1 with damod := 0, lev2 := 0}
  else if inPlay then st1
  else {st1 with lev2 := 1}

/-- `Acetylcholine._shift_kaf`, acting on a `kaf` mechanism: dMSN
only; on reset it clears `damod` and `modShift`, otherwise it writes
the shift. -/
def ach_shift_kaf (isDmsn : Bool) (by_mV : ℚ) (reset inPlay : Bool)
    (st : MechState) : MechState :=
  if isDmsn then
    if reset then {st with damod := 0, modShift := 0}
    else if inPlay then st
    else {st with modShift := by_mV}
  else st

/-- C1 (evaluation of the code at the failing input): starting from a
zero state with empty `play` and drawn factor `2`, `apply` followed by
a full reset leaves a Dopamine-touched mechanism and GABA synapse with
`damod = 1` (although `level = 0`), and leaves an
Acetylcholine-touched intrinsic mechanism with `lev2 = 1` (although
`damod = 0`); only the Acetylcholine synapses end in the claimed
`damod = 0 ∧ lev2 = 0` state.  This refutes the claim that every
touched mechanism and synapse ends with `damod = 0` and
`level`/`lev2` `= 0` for both modulators. -/
theorem C1_reset_divergence :
    ((da_modulate_instrinsic 2 true false
        (da_modulate_instrinsic 2 false false ⟨0, 0, 0, 0, 0, 0⟩)).damod = 1 ∧
     (da_modulate_instrinsic 2 true false
        (da_modulate_instrinsic 2 false false ⟨0, 0, 0, 0, 0, 0⟩)).level = 0) ∧
    (da_modulate_gaba 2 true false
        (da_modulate_gaba 2 false false ⟨0, 0, 0, 0, 0, 0⟩)).damod = 1 ∧
    (da_modulate_glut 2 true false
        (da_modulate_glut 2 false false ⟨0, 0, 0, 0, 0, 0⟩)).damod = 1 ∧
    ((ach_modulate_intrinsic 2 true false
        (ach_modulate_intrinsic 2 false false ⟨0, 0, 0, 0, 0, 0⟩)).lev2 = 1 ∧
     (ach_modulate_intrinsic 2 true false
        (ach_modulate_intrinsic 2 false false ⟨0, 0, 0, 0, 0, 0⟩)).damod = 0) ∧
    ((ach_modulate_gaba 2 true false
        (ach_modulate_gaba 2 false false ⟨0, 0, 0, 0, 0, 0⟩)).damod = 0 ∧
     (ach_modulate_gaba 2 true false
        (ach_modulate_gaba 2 false false ⟨0, 0, 0, 0, 0, 0⟩)).lev2 = 0) ∧
    ((ach_modulate_glut 2 true false
        (ach_modulate_glut 2 false false ⟨0, 0, 0, 0, 0, 0⟩)).damod = 0 ∧
     (ach_modulate_glut 2 true false
        (ach_modulate_glut 2 false false ⟨0, 0, 0, 0, 0, 0⟩)).lev2 = 0) ∧
    ((ach_shift_kaf true (-10) true false
        (ach_shift_kaf true (-10) false false ⟨0, 0, 0, 0, 0, 0⟩)).damod = 0 ∧
     (ach_shift_kaf true (-10) true false
        (ach_shift_kaf true (-10) false false ⟨0, 0, 0, 0, 0, 0⟩)).modShift = 0) := by
  decide

end MsnModel
